import Mathlib

/-
  Verification development for the Historical-Monuments repository.

  The backend routes (public read API in routes/publicRoute.js and the
  gallery service routes), the media compressor, and the frontend map and
  gallery rendering logic of the Placedetails component are embedded as
  executable Lean definitions, and the behavioural properties of the
  specification are settled against them.
-/

namespace HistMon

/-! ## JavaScript string primitives

The source uses the JS methods startsWith, endsWith, split and parseFloat.
They are embedded here with the ECMAScript semantics for the cases the
source exercises. -/

/-- Models the JS method s.startsWith(p): the first p.length characters of
s equal p. -/
def jsStartsWith (s p : String) : Bool :=
  decide (s.data.take p.data.length = p.data)

/-- Models the JS method s.endsWith(p): the last p.length characters of s
equal p. -/
def jsEndsWith (s p : String) : Bool :=
  decide (s.data.reverse.take p.data.length = p.data.reverse)

/-- Helper for the JS split model: accumulates the current component while
scanning for the separator character. -/
def splitCharAux (sep : Char) : List Char → List Char → List String
  | [], acc => [acc.reverse.asString]
  | c :: rest, acc =>
    if c == sep then acc.reverse.asString :: splitCharAux sep rest []
    else splitCharAux sep rest (c :: acc)

/-- Models the JS call s.split(sep) for a one-character separator, the only
form the source uses: the empty string splits to a single empty component,
and a string with k separators splits to k plus 1 components. -/
def jsSplitChar (s : String) (sep : Char) : List String :=
  splitCharAux sep s.data []

/-- Helper for the parseFloat model: a character list is a numeric start
when it begins with a digit, with a dot followed by a digit, or with the
word Infinity. -/
def numericStart (cs : List Char) : Bool :=
  match cs with
  | [] => false
  | c :: rest =>
    c.isDigit ||
    (c == '.' && (match rest with | d :: _ => d.isDigit | [] => false)) ||
    decide ((c :: rest).take 8 = ['I', 'n', 'f', 'i', 'n', 'i', 't', 'y'])

/-- Helper for the parseFloat model: strips one optional leading sign. -/
def dropSign : List Char → List Char
  | [] => []
  | c :: rest => if c == '+' || c == '-' then rest else c :: rest

/-- Models the JS expression !isNaN(parseFloat(s)): after optional leading
whitespace and an optional sign the string must begin with a digit, a dot
followed by a digit, or Infinity. -/
def jsParseFloatIsNum (s : String) : Bool :=
  numericStart (dropSign (s.data.dropWhile Char.isWhitespace))

/-- Models !isNaN(parseFloat(x)) where x is an indexed split component that
may be undefined: parseFloat(undefined) is NaN. -/
def jsParseFloatOptIsNum : Option String → Bool
  | none => false
  | some s => jsParseFloatIsNum s

/-! ## Data model

Monument and gallery records as stored in the document store, users, and
the object-storage bucket modelled as the list of keys it holds. -/

/-- A monument record: the fields of monumentModel that the public routes
and the frontend read (id, verification status, creation timestamp, owning
user, title, location string). -/
structure Monument where
  id : Nat
  status : Nat
  createdAt : Nat
  user : Nat
  title : String
  location : String
deriving Repr, DecidableEq

/-- A user record from userModel: identity and display name. -/
structure User where
  id : Nat
  name : String
deriving Repr, DecidableEq

/-- A gallery record from galleryModel: identity, owning monument
reference, display title, and the storage key of its media object. -/
structure GalleryItem where
  id : Nat
  monumentId : String
  imgTitle : String
  image : String
deriving Repr, DecidableEq

/-- A signed access URL as requested from the storage SDK: the object key
it grants access to and the validity window in seconds. -/
structure SignedUrl where
  key : String
  expiresIn : Nat
deriving Repr, DecidableEq

/-- A gallery record as returned by the read routes: the stored fields
plus the one added field imageUrl. -/
structure GalleryView where
  id : Nat
  monumentId : String
  imgTitle : String
  image : String
  imageUrl : SignedUrl
deriving Repr, DecidableEq

/-- An uploaded multipart file as multer presents it: original name,
declared mime type, raw bytes. -/
structure UploadFile where
  originalname : String
  mimetype : String
  buffer : List Nat
deriving Repr, DecidableEq

/-- The result of compressAndSaveFile: generated file name and output
bytes. -/
structure CompressedFile where
  fileName : String
  buffer : List Nat
deriving Repr, DecidableEq

/-- Combined backend state visible to the gallery routes: the gallery
collection of the document store and the set of keys present in the
object-storage bucket. -/
structure St where
  gallery : List GalleryItem
  s3 : List String
deriving Repr, DecidableEq

/-- An observable side effect of a handler, in the order the awaits run:
a storage PutObject, a storage DeleteObject, a document create, a document
findByIdAndDelete removal, or a document save. -/
inductive Ev where
  | evPut (key : String)
  | evDel (key : String)
  | dbCreate (id : Nat)
  | dbDelete (id : Nat)
  | dbSave (id : Nat)
deriving Repr, DecidableEq

/-- Models the storage PutObject call: bucket keys are unique, so a put
installs the key, replacing any object previously stored under it. -/
def s3PutKey (bucket : List String) (key : String) : List String :=
  key :: bucket.filter (fun k => k != key)

/-- Models the storage DeleteObject call: the key is removed from the
bucket. -/
def s3DeleteKey (bucket : List String) (key : String) : List String :=
  bucket.filter (fun k => k != key)

/-! ## Public monument routes (backend/routes/publicRoute.js) -/

/-- Insertion step for the createdAt-descending sort used by the latest3
route. -/
def insertByCreatedDesc (m : Monument) : List Monument → List Monument
  | [] => [m]
  | x :: xs =>
    if m.createdAt ≤ x.createdAt then x :: insertByCreatedDesc m xs
    else m :: x :: xs

/-- Sorts monuments by creation timestamp descending, the order produced
by sort with createdAt: -1. -/
def sortByCreatedDesc : List Monument → List Monument
  | [] => []
  | m :: ms => insertByCreatedDesc m (sortByCreatedDesc ms)

/-- Embeds GET /public/latest3/ (publicRoute.js lines 39 to 50): the query
is Monument.find with the filter status equal to 1, sorted by createdAt
descending, limited to 3 documents. -/
def latest3 (store : List Monument) : List Monument :=
  (sortByCreatedDesc (store.filter (fun m => m.status == 1))).take 3

/-- Embeds GET /public/:id (publicRoute.js lines 52 to 74): findById on
the monument, then findById on monument.user, then the composite of the
monument and the user name. A null monument makes the access monument.user
throw and a null user makes user.name throw; both land in the catch block
that sends status 500, so no partial result is ever produced. -/
def getOne (monuments : List Monument) (users : List User) (id : Nat) :
    Except Nat (Monument × String) :=
  match monuments.find? (fun m => m.id == id) with
  | none => Except.error 500
  | some m =>
    match users.find? (fun u => u.id == m.user) with
    | none => Except.error 500
    | some u => Except.ok (m, u.name)

/-- Builds the response record of the gallery read routes: the stored
fields of the record spread unchanged, plus imageUrl holding a signed URL
for the record key requested with expiresIn 3600. -/
def toView (g : GalleryItem) : GalleryView :=
  { id := g.id
    monumentId := g.monumentId
    imgTitle := g.imgTitle
    image := g.image
    imageUrl := { key := g.image, expiresIn := 3600 } }

/-- Embeds GET /public/monument/:monumentId (publicRoute.js lines 76 to
102) and the identical GET /monument/:monumentId gallery route: find all
gallery records for the monument and augment each with a signed URL valid
for 3600 seconds. -/
def readByMonument (items : List GalleryItem) (monumentId : String) :
    List GalleryView :=
  (items.filter (fun g => g.monumentId == monumentId)).map toView

/-! ## Media compressor and gallery service routes (gallery route module) -/

/-- Embeds compressAndSaveFile (gallery route module lines 35 to 64). The
argument rnd stands for the value of Math.floor(Math.random() * 1000000) +
1000000, and jpegEnc abstracts the sharp re-encode pipeline at the given
jpeg quality. The generated name is the first dot-separated component of
the original name followed by rnd and a fixed extension: .mp4 with the
bytes passed through unchanged for a video mime type, .jpg with the bytes
re-encoded at quality 30 otherwise. -/
def compressAndSaveFile (jpegEnc : Nat → List Nat → List Nat) (rnd : Nat)
    (file : UploadFile) : CompressedFile :=
  if jsStartsWith file.mimetype "video" then
    { fileName := ((jsSplitChar file.originalname '.').headD "") ++ toString rnd ++ ".mp4"
      buffer := file.buffer }
  else
    { fileName := ((jsSplitChar file.originalname '.').headD "") ++ toString rnd ++ ".jpg"
      buffer := jpegEnc 30 file.buffer }

/-- Embeds POST /:monumentId of the gallery route (lines 67 to 104): the
handler first validates that imgTitle and file are truthy (a missing field
or an empty title fails with 400 before any effect), then compresses, then
sends the storage PutObject, then calls Gallery.create. putOk says whether
the PutObject call succeeds; when it throws, the catch block sends 500 and
no record is created. newId is the identity the document store assigns to
the created record. -/
def galleryCreate (jpegEnc : Nat → List Nat → List Nat) (rnd : Nat)
    (putOk : Bool) (st : St) (monumentId : String)
    (imgTitle : Option String) (file : Option UploadFile) (newId : Nat) :
    Nat × St × List Ev :=
  match file with
  | none => (400, st, [])
  | some f =>
    if imgTitle.getD "" == "" then (400, st, [])
    else
      let c := compressAndSaveFile jpegEnc rnd f
      if putOk then
        let item : GalleryItem :=
          { id := newId
            monumentId := monumentId
            imgTitle := imgTitle.getD ""
            image := c.fileName }
        (201,
         { gallery := st.gallery ++ [item], s3 := s3PutKey st.s3 c.fileName },
         [Ev.evPut c.fileName, Ev.dbCreate newId])
      else (500, st, [])

/-- Models the conditional title overwrite of the update route: the body
field imgTitle is applied only when present and truthy (nonempty). -/
def applyTitle (imgTitle : Option String) (g : GalleryItem) : GalleryItem :=
  if imgTitle.getD "" == "" then g else { g with imgTitle := imgTitle.getD "" }

/-- Embeds GET /:id of the gallery route (lines 135 to 160): findById,
404 when absent, otherwise the record augmented with a signed URL valid
for 3600 seconds. -/
def galleryReadOne (items : List GalleryItem) (id : Nat) :
    Except Nat GalleryView :=
  match items.find? (fun g => g.id == id) with
  | none => Except.error 404
  | some g => Except.ok (toView g)

/-- Embeds PUT /:id of the gallery route (lines 162 to 208): findById, 404
when absent; when a file is uploaded the new object is compressed and
written under the newly generated key, the in-memory record key is set to
the new key, and only then is the old object deleted; a truthy imgTitle
overwrites the stored title; finally save persists the record. putOk and
delOk say whether the storage PutObject and DeleteObject calls succeed;
either throw lands in the catch block that sends 500, skipping save. -/
def galleryUpdate (jpegEnc : Nat → List Nat → List Nat) (rnd : Nat)
    (putOk delOk : Bool) (st : St) (id : Nat)
    (imgTitle : Option String) (file : Option UploadFile) :
    Nat × St × List Ev :=
  match st.gallery.find? (fun g => g.id == id) with
  | none => (404, st, [])
  | some g =>
    match file with
    | none =>
      let g2 := applyTitle imgTitle g
      (200,
       { st with gallery := st.gallery.map (fun x => if x.id == id then g2 else x) },
       [Ev.dbSave id])
    | some f =>
      let c := compressAndSaveFile jpegEnc rnd f
      if putOk then
        if delOk then
          let g2 := applyTitle imgTitle { g with image := c.fileName }
          (200,
           { gallery := st.gallery.map (fun x => if x.id == id then g2 else x)
             s3 := s3DeleteKey (s3PutKey st.s3 c.fileName) g.image },
           [Ev.evPut c.fileName, Ev.evDel g.image, Ev.dbSave id])
        else
          (500, { st with s3 := s3PutKey st.s3 c.fileName }, [Ev.evPut c.fileName])
      else (500, st, [])

/-- Embeds DELETE /:id of the gallery route (lines 210 to 232): the first
await is Gallery.findByIdAndDelete, which removes the record from the
document store and returns it (404 when nothing matched); only after that
removal is the storage DeleteObject sent for the record key. delOk says
whether that storage call succeeds; when it throws, the catch block sends
500 with the record already gone. -/
def galleryDelete (st : St) (id : Nat) (delOk : Bool) : Nat × St × List Ev :=
  match st.gallery.find? (fun g => g.id == id) with
  | none => (404, st, [])
  | some g =>
    let st1 : St := { st with gallery := st.gallery.filter (fun x => x.id != id) }
    if delOk then
      (200, { st1 with s3 := s3DeleteKey st1.s3 g.image },
       [Ev.dbDelete id, Ev.evDel g.image])
    else
      (500, st1, [Ev.dbDelete id])

/-! ## Frontend rendering logic (Placedetails component) -/

/-- Embeds isValidLatLong (Placedetails lines 71 to 77): both indexed
components of location split on a comma must parse as numbers; a missing
second component is undefined, whose parseFloat is NaN. -/
def isValidLatLong (location : String) : Bool :=
  jsParseFloatOptIsNum ((jsSplitChar location ',').get? 0) &&
  jsParseFloatOptIsNum ((jsSplitChar location ',').get? 1)

/-- Embeds the map section of Placedetails (lines 254 to 279): the Map
component is instantiated exactly when location is truthy (nonempty) and
isValidLatLong holds, and it receives the first split component as
latitude and the second as longitude. -/
def mapComponentProps (location : String) : Option (String × String) :=
  if location != "" && isValidLatLong location then
    some ((jsSplitChar location ',').getD 0 "", (jsSplitChar location ',').getD 1 "")
  else none

/-- The rendered map area of Placedetails: the optional Map component and
the always-present Google Maps button together with the URL its click
handler navigates to. -/
structure MapSectionView where
  mapProps : Option (String × String)
  buttonHref : String
deriving Repr, DecidableEq

/-- Embeds the map rendering of Placedetails together with handleMapClick
(lines 23 to 25): the button is unconditional and its target URL appends
location to the maps query URL verbatim. -/
def renderMapArea (location : String) : MapSectionView :=
  { mapProps := mapComponentProps location
    buttonHref := "https://maps.google.com/?q=" ++ location }

/-- Embeds the media-kind test of the gallery renderer in Placedetails
(line 222): an item is rendered with the video player exactly when its
storage key ends in .mp4. -/
def rendersAsVideo (g : GalleryItem) : Bool :=
  jsEndsWith g.image ".mp4"

/-! ## Concrete stores used to instantiate the claims -/

/-- A store of five monuments with verification statuses 1, 0, 1, 1, 0
created at strictly increasing timestamps, the scenario store of the
specification. -/
def fiveStore : List Monument :=
  [ { id := 1, status := 1, createdAt := 1, user := 1, title := "m1", location := "" },
    { id := 2, status := 0, createdAt := 2, user := 1, title := "m2", location := "" },
    { id := 3, status := 1, createdAt := 3, user := 1, title := "m3", location := "" },
    { id := 4, status := 1, createdAt := 4, user := 1, title := "m4", location := "" },
    { id := 5, status := 0, createdAt := 5, user := 1, title := "m5", location := "" } ]

/-- The fourth record of the scenario store. -/
def mon4 : Monument :=
  { id := 4, status := 1, createdAt := 4, user := 1, title := "m4", location := "" }

/-- A one-record gallery state used as the concrete input for the delete
route claims. -/
def delSt : St :=
  { gallery := [{ id := 1, monumentId := "m1", imgTitle := "t", image := "k.jpg" }]
    s3 := ["k.jpg"] }

/-! ## Helper lemmas -/

/-- Membership in the insertion step of the descending sort. -/
lemma mem_insertByCreatedDesc {m x : Monument} {l : List Monument} :
    x ∈ insertByCreatedDesc m l ↔ x = m ∨ x ∈ l := by
  induction l with
  | nil => simp [insertByCreatedDesc]
  | cons a as ih =>
    simp only [insertByCreatedDesc]
    split
    · simp only [List.mem_cons, ih]
      tauto
    · simp only [List.mem_cons]

/-- Sorting by creation timestamp descending preserves membership. -/
lemma mem_sortByCreatedDesc {x : Monument} {l : List Monument} :
    x ∈ sortByCreatedDesc l ↔ x ∈ l := by
  induction l with
  | nil => simp [sortByCreatedDesc]
  | cons a as ih => simp [sortByCreatedDesc, mem_insertByCreatedDesc, ih]

/-- Inserting into a createdAt-descending list keeps it descending. -/
lemma pairwise_insertByCreatedDesc {m : Monument} {l : List Monument}
    (h : l.Pairwise (fun a b => b.createdAt ≤ a.createdAt)) :
    (insertByCreatedDesc m l).Pairwise (fun a b => b.createdAt ≤ a.createdAt) := by
  induction l with
  | nil => simp [insertByCreatedDesc]
  | cons a as ih =>
    rcases List.pairwise_cons.mp h with ⟨ha, has⟩
    simp only [insertByCreatedDesc]
    split
    · next hle =>
      refine List.pairwise_cons.mpr ⟨?_, ih has⟩
      intro b hb
      rcases mem_insertByCreatedDesc.mp hb with rfl | hbmem
      · exact hle
      · exact ha b hbmem
    · next hgt =>
      push_neg at hgt
      refine List.pairwise_cons.mpr ⟨?_, h⟩
      intro b hb
      rcases List.mem_cons.mp hb with rfl | hbmem
      · exact le_of_lt hgt
      · exact le_trans (ha b hbmem) (le_of_lt hgt)

/-- The output of the descending sort is createdAt-descending. -/
lemma pairwise_sortByCreatedDesc (l : List Monument) :
    (sortByCreatedDesc l).Pairwise (fun a b => b.createdAt ≤ a.createdAt) := by
  induction l with
  | nil => simp [sortByCreatedDesc]
  | cons a as ih => exact pairwise_insertByCreatedDesc ih

/-! ## Claim C1: the latest3 route and verification status -/

/-- C1 counterexample: on the five-monument scenario store the latest3
route returns the records created at timestamps 4, 3 and 1 (the verified
ones in creation order descending), while the three most recently created
records of the store are the ones created at timestamps 5, 4 and 3; the
two results differ, so the route does filter on verification status. -/
theorem latest3_counterexample :
    (latest3 fiveStore).map (fun m => m.createdAt) = [4, 3, 1] ∧
    ((sortByCreatedDesc fiveStore).take 3).map (fun m => m.createdAt) = [5, 4, 3] ∧
    latest3 fiveStore ≠ (sortByCreatedDesc fiveStore).take 3 := by
  decide

/-- C1 amended: every record returned by the latest3 route is a record of
the store with verification status 1; at most three records are returned,
ordered by creation timestamp descending; and on the five-monument
scenario store the route returns the three most recently created verified
records, created at timestamps 4, 3 and 1. -/
theorem latest3_filters_verified (store : List Monument) :
    (∀ m, m ∈ latest3 store → m.status = 1 ∧ m ∈ store) ∧
    (latest3 store).length ≤ 3 ∧
    (latest3 store).Pairwise (fun a b => b.createdAt ≤ a.createdAt) ∧
    (latest3 fiveStore).map (fun m => m.createdAt) = [4, 3, 1] := by
  refine ⟨?_, ?_, ?_, by decide⟩
  · intro m hm
    have hm2 : m ∈ sortByCreatedDesc (store.filter (fun x => x.status == 1)) :=
      List.Sublist.mem hm (List.take_sublist 3 _)
    have hm3 : m ∈ store.filter (fun x => x.status == 1) :=
      mem_sortByCreatedDesc.mp hm2
    rcases List.mem_filter.mp hm3 with ⟨hmem, hstat⟩
    exact ⟨by simpa using hstat, hmem⟩
  · rw [latest3, List.length_take]
    exact min_le_left _ _
  · exact List.Pairwise.sublist (List.take_sublist 3 _) (pairwise_sortByCreatedDesc _)

/-- C1 amended, instantiated: the head record of the scenario result is a
verified member of the scenario store. -/
theorem latest3_filters_verified_witness :
    mon4.status = 1 ∧ mon4 ∈ fiveStore :=
  (latest3_filters_verified fiveStore).1 mon4 (by decide)

/-! ## Claim C2: deletion order of the gallery delete route -/

/-- C2 counterexample: at the concrete state delSt the delete route emits
the document-store removal before the storage delete; the event trace is
not the claimed storage-first order. -/
theorem galleryDelete_counterexample :
    (galleryDelete delSt 1 true).2.2 = [Ev.dbDelete 1, Ev.evDel "k.jpg"] ∧
    (galleryDelete delSt 1 true).2.2 ≠ [Ev.evDel "k.jpg", Ev.dbDelete 1] := by
  decide

/-- C2 amended: when a record with the given id exists and the storage
delete succeeds, the delete route removes the document-store record first
(through findByIdAndDelete) and deletes the underlying storage object
second, answering 200 with both the record and the object gone. -/
theorem galleryDelete_order (st : St) (id : Nat) (g : GalleryItem)
    (h : st.gallery.find? (fun x => x.id == id) = some g) :
    galleryDelete st id true =
      (200,
       { gallery := st.gallery.filter (fun x => x.id != id)
         s3 := s3DeleteKey st.s3 g.image },
       [Ev.dbDelete id, Ev.evDel g.image]) := by
  simp [galleryDelete, h]

/-- C2 amended, instantiated at the one-record state. -/
theorem galleryDelete_order_witness :
    galleryDelete delSt 1 true =
      (200, { gallery := [], s3 := [] }, [Ev.dbDelete 1, Ev.evDel "k.jpg"]) := by
  rw [galleryDelete_order delSt 1 ⟨1, "m1", "t", "k.jpg"⟩ (by decide)]
  decide

/-! ## Claim C9: the delete route is not atomic on storage failure -/

/-- C9: when the record exists but the storage delete fails, the delete
route answers 500 while the record is already removed: the resulting
gallery no longer resolves the id, the bucket keys are untouched, the
observable state differs from the initial one, and an immediate retry of
the same delete answers 404 and changes nothing further. -/
theorem galleryDelete_failure_observed (st : St) (id : Nat) (g : GalleryItem)
    (h : st.gallery.find? (fun x => x.id == id) = some g) :
    (galleryDelete st id false).1 = 500 ∧
    ((galleryDelete st id false).2.1).gallery.find? (fun x => x.id == id) = none ∧
    ((galleryDelete st id false).2.1).s3 = st.s3 ∧
    (galleryDelete st id false).2.1 ≠ st ∧
    (∀ b : Bool, galleryDelete ((galleryDelete st id false).2.1) id b =
       (404, (galleryDelete st id false).2.1, [])) := by
  have hnone :
      (st.gallery.filter (fun x => x.id != id)).find? (fun x => x.id == id) = none := by
    rw [List.find?_eq_none]
    intro x hx
    rcases List.mem_filter.mp hx with ⟨-, hne⟩
    simp only [bne_iff_ne, ne_eq] at hne
    simp [hne]
  have hres : galleryDelete st id false =
      (500, { gallery := st.gallery.filter (fun x => x.id != id), s3 := st.s3 },
       [Ev.dbDelete id]) := by
    simp [galleryDelete, h]
  refine ⟨by rw [hres], by rw [hres]; exact hnone, by rw [hres], ?_, ?_⟩
  · rw [hres]
    intro heq
    have hg : (st.gallery.filter (fun x => x.id != id)) = st.gallery :=
      congrArg St.gallery heq
    rw [hg] at hnone
    rw [hnone] at h
    exact Option.noConfusion h
  · intro b
    rw [hres]
    simp [galleryDelete, hnone]

/-- C9, instantiated at the one-record state: the failed delete answers
500 and the immediate retry answers 404. -/
theorem galleryDelete_failure_observed_witness :
    (galleryDelete delSt 1 false).1 = 500 ∧
    (galleryDelete (galleryDelete delSt 1 false).2.1 1 true).1 = 404 := by
  have h := galleryDelete_failure_observed delSt 1 ⟨1, "m1", "t", "k.jpg"⟩ (by decide)
  exact ⟨h.1, by rw [h.2.2.2.2 true]⟩

/-! ## Claim C3: failure modes of the public get-one route -/

/-- C3: when the monument id does not resolve, the get-one route fails
with no success result (the null access throws into the catch that sends
500, an implicit not-found failure rather than an explicit 404); when the
monument resolves but its owning user does not, the route propagates the
same internal error 500; and a success result exists only when both
records resolve, carrying exactly the monument together with the user
name, so no partial result is ever produced. -/
theorem getOne_failure (monuments : List Monument) (users : List User) (id : Nat) :
    (monuments.find? (fun m => m.id == id) = none →
       getOne monuments users id = Except.error 500) ∧
    (∀ m, monuments.find? (fun x => x.id == id) = some m →
       users.find? (fun u => u.id == m.user) = none →
       getOne monuments users id = Except.error 500) ∧
    (∀ r, getOne monuments users id = Except.ok r →
       ∃ m u, monuments.find? (fun x => x.id == id) = some m ∧
         users.find? (fun v => v.id == m.user) = some u ∧ r = (m, u.name)) := by
  refine ⟨?_, ?_, ?_⟩
  · intro h
    simp [getOne, h]
  · intro m hm hu
    simp [getOne, hm, hu]
  · intro r hr
    rcases hfm : monuments.find? (fun x => x.id == id) with - | m
    · simp [getOne, hfm] at hr
    · rcases hfu : users.find? (fun u => u.id == m.user) with - | u
      · simp [getOne, hfm, hfu] at hr
      · simp only [getOne, hfm, hfu, Except.ok.injEq] at hr
        exact ⟨m, u, hfm, hfu, hr.symm⟩

/-- C3, instantiated: an empty monument store fails with 500, and a store
whose monument references an absent user also fails with 500. -/
theorem getOne_failure_witness :
    getOne [] [] 1 = Except.error 500 ∧
    getOne [⟨1, 1, 1, 7, "t", ""⟩] [] 1 = Except.error 500 :=
  ⟨(getOne_failure [] [] 1).1 (by decide),
   (getOne_failure [⟨1, 1, 1, 7, "t", ""⟩] [] 1).2.1 ⟨1, 1, 1, 7, "t", ""⟩
     (by decide) (by decide)⟩

/-! ## Claim C4: upload validation and persistence order -/

/-- C4: a missing file or a missing or empty title makes the upload route
answer 400 with the state unchanged and no effect emitted; with both
present, a failing storage write leaves the state unchanged with no record
created, and a successful storage write is followed by the document create
that appends the record, the event trace showing the storage put strictly
before the create. -/
theorem galleryCreate_validation (jpegEnc : Nat → List Nat → List Nat)
    (rnd : Nat) (st : St) (monumentId : String)
    (imgTitle : Option String) (file : Option UploadFile) (newId : Nat) :
    ((imgTitle.getD "" = "" ∨ file = none) →
       ∀ putOk, galleryCreate jpegEnc rnd putOk st monumentId imgTitle file newId =
         (400, st, [])) ∧
    (∀ t f, imgTitle = some t → t ≠ "" → file = some f →
       galleryCreate jpegEnc rnd false st monumentId imgTitle file newId =
         (500, st, []) ∧
       galleryCreate jpegEnc rnd true st monumentId imgTitle file newId =
         (201,
          { gallery := st.gallery ++
              [{ id := newId
                 monumentId := monumentId
                 imgTitle := t
                 image := (compressAndSaveFile jpegEnc rnd f).fileName }]
            s3 := s3PutKey st.s3 (compressAndSaveFile jpegEnc rnd f).fileName },
          [Ev.evPut (compressAndSaveFile jpegEnc rnd f).fileName, Ev.dbCreate newId])) := by
  constructor
  · rintro (ht | hf) putOk
    · cases file with
      | none => rfl
      | some f => simp [galleryCreate, ht]
    · subst hf
      rfl
  · intro t f ht hne hf
    subst ht
    subst hf
    constructor <;> simp [galleryCreate, hne]

/-- C4, instantiated: an empty title is rejected with 400 and no effect,
and a complete upload writes the storage object and then creates the
record. -/
theorem galleryCreate_validation_witness :
    galleryCreate (fun _ b => b) 1000001 true ⟨[], []⟩ "m1" (some "")
      (some ⟨"taj.png", "image/png", [1, 2, 3]⟩) 7 = (400, ⟨[], []⟩, []) ∧
    galleryCreate (fun _ b => b) 1000001 true ⟨[], []⟩ "m1" (some "t")
      (some ⟨"taj.png", "image/png", [1, 2, 3]⟩) 7 =
      (201, ⟨[⟨7, "m1", "t", "taj1000001.jpg"⟩], ["taj1000001.jpg"]⟩,
       [Ev.evPut "taj1000001.jpg", Ev.dbCreate 7]) := by
  constructor
  · exact (galleryCreate_validation (fun _ b => b) 1000001 ⟨[], []⟩ "m1" (some "")
      (some ⟨"taj.png", "image/png", [1, 2, 3]⟩) 7).1 (Or.inl rfl) true
  · rw [((galleryCreate_validation (fun _ b => b) 1000001 ⟨[], []⟩ "m1" (some "t")
      (some ⟨"taj.png", "image/png", [1, 2, 3]⟩) 7).2 "t"
      ⟨"taj.png", "image/png", [1, 2, 3]⟩ rfl (by decide) rfl).2]
    decide

/-! ## Claim C5: the update route with a new file -/

/-- Replacing the found record by one with the same identity is visible to
a later findById. -/
lemma find?_map_replace {l : List GalleryItem} {id : Nat} {g g2 : GalleryItem}
    (h : l.find? (fun x => x.id == id) = some g) (hid : g2.id = g.id) :
    (l.map (fun x => if x.id == id then g2 else x)).find? (fun x => x.id == id) =
      some g2 := by
  have hgid : g.id = id := by simpa using List.find?_some h
  induction l with
  | nil => simp at h
  | cons a as ih =>
    by_cases ha : a.id = id
    · have hag : a = g := by
        rw [List.find?_cons_of_pos _ (by simp [ha])] at h
        exact Option.some.inj h
      subst hag
      simp only [List.map_cons, if_pos (by simp [ha] : (a.id == id) = true)]
      exact List.find?_cons_of_pos _ (by simp [hid, hgid])
    · rw [List.find?_cons_of_neg _ (by simp [ha])] at h
      simp only [List.map_cons, if_neg (by simp [ha] : ¬(a.id == id) = true)]
      rw [List.find?_cons_of_neg _ (by simp [ha])]
      exact ih h

/-- C5: on an existing record with a new file supplied, a successful
update answers 200 with the event trace putting the new object before
deleting the previous one and saving last; afterwards reading the record
yields the record under the new storage key with a fresh signed URL for
it, a nonempty supplied title has overwritten the old one, and the bucket
holds the new key but no longer the previous one. -/
theorem galleryUpdate_new_file (jpegEnc : Nat → List Nat → List Nat)
    (rnd : Nat) (st : St) (id : Nat) (g : GalleryItem)
    (imgTitle : Option String) (f : UploadFile)
    (h : st.gallery.find? (fun x => x.id == id) = some g)
    (hkey : g.image ≠ (compressAndSaveFile jpegEnc rnd f).fileName) :
    (galleryUpdate jpegEnc rnd true true st id imgTitle (some f)).1 = 200 ∧
    (galleryUpdate jpegEnc rnd true true st id imgTitle (some f)).2.2 =
      [Ev.evPut (compressAndSaveFile jpegEnc rnd f).fileName,
       Ev.evDel g.image, Ev.dbSave id] ∧
    galleryReadOne (galleryUpdate jpegEnc rnd true true st id imgTitle (some f)).2.1.gallery id =
      Except.ok (toView (applyTitle imgTitle
        { g with image := (compressAndSaveFile jpegEnc rnd f).fileName })) ∧
    (toView (applyTitle imgTitle
        { g with image := (compressAndSaveFile jpegEnc rnd f).fileName })).image =
      (compressAndSaveFile jpegEnc rnd f).fileName ∧
    (∀ t, imgTitle = some t → t ≠ "" →
       (applyTitle imgTitle
         { g with image := (compressAndSaveFile jpegEnc rnd f).fileName }).imgTitle = t) ∧
    (compressAndSaveFile jpegEnc rnd f).fileName ∈
      (galleryUpdate jpegEnc rnd true true st id imgTitle (some f)).2.1.s3 ∧
    g.image ∉ (galleryUpdate jpegEnc rnd true true st id imgTitle (some f)).2.1.s3 := by
  have hres : galleryUpdate jpegEnc rnd true true st id imgTitle (some f) =
      (200,
       { gallery := st.gallery.map (fun x =>
           if x.id == id then
             applyTitle imgTitle
               { g with image := (compressAndSaveFile jpegEnc rnd f).fileName }
           else x)
         s3 := s3DeleteKey (s3PutKey st.s3 (compressAndSaveFile jpegEnc rnd f).fileName)
                 g.image },
       [Ev.evPut (compressAndSaveFile jpegEnc rnd f).fileName,
        Ev.evDel g.image, Ev.dbSave id]) := by
    simp [galleryUpdate, h]
  have hid : (applyTitle imgTitle
      { g with image := (compressAndSaveFile jpegEnc rnd f).fileName }).id = g.id := by
    unfold applyTitle
    split <;> rfl
  refine ⟨by rw [hres], by rw [hres], ?_, ?_, ?_, ?_, ?_⟩
  · rw [hres]
    simp only [galleryReadOne, find?_map_replace h hid]
  · unfold toView applyTitle
    split <;> rfl
  · intro t ht hne
    subst ht
    simp [applyTitle, hne]
  · rw [hres]
    simp only [s3PutKey, s3DeleteKey]
    exact List.mem_filter.mpr ⟨List.mem_cons_self _ _, bne_iff_ne.mpr (Ne.symm hkey)⟩
  · rw [hres]
    intro hmem
    simp only [s3DeleteKey] at hmem
    rcases List.mem_filter.mp hmem with ⟨-, hne⟩
    simp at hne

/-- C5, instantiated: the concrete update writes the new object before
deleting the old key, and the old key is gone from the bucket. -/
theorem galleryUpdate_new_file_witness :
    (galleryUpdate (fun _ b => b) 1000001 true true
       ⟨[⟨1, "m1", "old", "k.jpg"⟩], ["k.jpg"]⟩ 1
       (some "new") (some ⟨"taj.png", "image/png", [1, 2]⟩)).2.2 =
      [Ev.evPut "taj1000001.jpg", Ev.evDel "k.jpg", Ev.dbSave 1] ∧
    "k.jpg" ∉ (galleryUpdate (fun _ b => b) 1000001 true true
       ⟨[⟨1, "m1", "old", "k.jpg"⟩], ["k.jpg"]⟩ 1
       (some "new") (some ⟨"taj.png", "image/png", [1, 2]⟩)).2.1.s3 := by
  have h := galleryUpdate_new_file (fun _ b => b) 1000001
      ⟨[⟨1, "m1", "old", "k.jpg"⟩], ["k.jpg"]⟩ 1
      ⟨1, "m1", "old", "k.jpg"⟩ (some "new") ⟨"taj.png", "image/png", [1, 2]⟩
      (by decide) (by decide)
  refine ⟨?_, h.2.2.2.2.2.2⟩
  rw [h.2.1]
  decide

/-! ## Claim C6: the compressor -/

/-- C6: when the declared mime type starts with video, the compressor
passes the bytes through unchanged and names the output with the stem of
the original name (its first dot-separated component), the decimal digits
of the random number, and the fixed extension .mp4; otherwise the bytes
are the jpeg re-encode at the fixed quality 30 and the name carries the
fixed extension .jpg after the same stem and numeric suffix. -/
theorem compressAndSaveFile_spec (jpegEnc : Nat → List Nat → List Nat)
    (rnd : Nat) (file : UploadFile) :
    (jsStartsWith file.mimetype "video" = true →
       compressAndSaveFile jpegEnc rnd file =
         { fileName := ((jsSplitChar file.originalname '.').headD "") ++
             toString rnd ++ ".mp4"
           buffer := file.buffer }) ∧
    (jsStartsWith file.mimetype "video" = false →
       compressAndSaveFile jpegEnc rnd file =
         { fileName := ((jsSplitChar file.originalname '.').headD "") ++
             toString rnd ++ ".jpg"
           buffer := jpegEnc 30 file.buffer }) := by
  constructor <;> intro h <;> simp [compressAndSaveFile, h]

/-- C6, instantiated: a video upload is passed through under an .mp4 name
and an image upload is re-encoded under a .jpg name, both derived from the
original stem and the numeric suffix. -/
theorem compressAndSaveFile_spec_witness :
    compressAndSaveFile (fun _ _ => [9]) 1000001 ⟨"clip.mov", "video/mp4", [1, 2]⟩ =
      { fileName := "clip1000001.mp4", buffer := [1, 2] } ∧
    compressAndSaveFile (fun _ _ => [9]) 1000001 ⟨"taj.png", "image/png", [1, 2]⟩ =
      { fileName := "taj1000001.jpg", buffer := [9] } := by
  constructor
  · rw [(compressAndSaveFile_spec (fun _ _ => [9]) 1000001
      ⟨"clip.mov", "video/mp4", [1, 2]⟩).1 (by decide)]
    decide
  · rw [(compressAndSaveFile_spec (fun _ _ => [9]) 1000001
      ⟨"taj.png", "image/png", [1, 2]⟩).2 (by decide)]
    decide

/-! ## Claim C7: gallery reads augment and preserve -/

/-- C7: every stored record matching the monument id appears in the read
result as its view, and every returned view arises from a matching stored
record with all stored fields unchanged and with the one added field
imageUrl holding a signed URL for the record key requested with a
validity window of 3600 seconds. -/
theorem readByMonument_frame (items : List GalleryItem) (mid : String) :
    (∀ g, g ∈ items → g.monumentId = mid → toView g ∈ readByMonument items mid) ∧
    (∀ v, v ∈ readByMonument items mid → ∃ g, g ∈ items ∧ g.monumentId = mid ∧
       v.id = g.id ∧ v.monumentId = g.monumentId ∧ v.imgTitle = g.imgTitle ∧
       v.image = g.image ∧ v.imageUrl = { key := g.image, expiresIn := 3600 }) := by
  constructor
  · intro g hg hmid
    exact List.mem_map.mpr ⟨g, List.mem_filter.mpr ⟨hg, by simp [hmid]⟩, rfl⟩
  · intro v hv
    rcases List.mem_map.mp hv with ⟨g, hg, rfl⟩
    rcases List.mem_filter.mp hg with ⟨hg2, hp⟩
    exact ⟨g, hg2, by simpa using hp, rfl, rfl, rfl, rfl, rfl⟩

/-- C7, instantiated: the view of a concrete matching record is in the
result, with the stored fields intact and a one-hour signed URL for its
key. -/
theorem readByMonument_frame_witness :
    toView ⟨1, "m1", "t", "k.jpg"⟩ ∈ readByMonument [⟨1, "m1", "t", "k.jpg"⟩] "m1" ∧
    (toView ⟨1, "m1", "t", "k.jpg"⟩).imageUrl = { key := "k.jpg", expiresIn := 3600 } :=
  ⟨(readByMonument_frame [⟨1, "m1", "t", "k.jpg"⟩] "m1").1 ⟨1, "m1", "t", "k.jpg"⟩
     (by decide) rfl, rfl⟩

/-! ## Claim C10: extension-based media-kind classification -/

/-- Appending a string to another makes the result end in it. -/
lemma jsEndsWith_append (s p : String) : jsEndsWith (s ++ p) p = true := by
  have hx : (s ++ p).data.reverse.take p.data.length = p.data.reverse := by
    rw [String.data_append, List.reverse_append]
    exact List.take_left' (List.length_reverse _)
  simp [jsEndsWith, hx]

/-- A name carrying the .jpg extension does not end in .mp4. -/
lemma jsEndsWith_jpg_mp4 (s : String) : jsEndsWith (s ++ ".jpg") ".mp4" = false := by
  have hx : (s ++ ".jpg").data.reverse.take (".mp4".data.length) = ".jpg".data.reverse := by
    rw [String.data_append, List.reverse_append]
    exact List.take_left' (by decide)
  simp [jsEndsWith, hx]

/-- C10: the generated storage key ends in .mp4 exactly when the declared
mime type of the upload starts with video, and every record created by a
successful upload is classified as video by the frontend test on its key
exactly when it was uploaded with a video mime type. -/
theorem storageKey_video_classification (jpegEnc : Nat → List Nat → List Nat)
    (rnd : Nat) (st : St) (monumentId : String) (t : String) (f : UploadFile)
    (newId : Nat) (ht : t ≠ "") :
    jsEndsWith (compressAndSaveFile jpegEnc rnd f).fileName ".mp4" =
      jsStartsWith f.mimetype "video" ∧
    (∀ g, g ∈ (galleryCreate jpegEnc rnd true st monumentId (some t) (some f) newId).2.1.gallery →
       g ∉ st.gallery →
       rendersAsVideo g = jsStartsWith f.mimetype "video") := by
  have hmp4 : jsEndsWith (compressAndSaveFile jpegEnc rnd f).fileName ".mp4" =
      jsStartsWith f.mimetype "video" := by
    cases hv : jsStartsWith f.mimetype "video" with
    | true =>
      simp only [compressAndSaveFile, hv, if_true]
      exact jsEndsWith_append _ _
    | false =>
      simp only [compressAndSaveFile, hv, Bool.false_eq_true, if_false]
      exact jsEndsWith_jpg_mp4 _
  refine ⟨hmp4, ?_⟩
  intro g hg hnot
  have hcreate :
      (galleryCreate jpegEnc rnd true st monumentId (some t) (some f) newId).2.1.gallery =
        st.gallery ++
          [{ id := newId
             monumentId := monumentId
             imgTitle := t
             image := (compressAndSaveFile jpegEnc rnd f).fileName }] := by
    simp [galleryCreate, ht]
  rw [hcreate] at hg
  rcases List.mem_append.mp hg with hmem | hmem
  · exact absurd hmem hnot
  · rcases List.mem_singleton.mp hmem with rfl
    exact hmp4

/-- C10, instantiated: the record created by a concrete video upload is
classified as video by the frontend test on its key. -/
theorem storageKey_video_classification_witness :
    rendersAsVideo ⟨7, "m1", "t", "clip1000001.mp4"⟩ = true := by
  have h := storageKey_video_classification (fun _ _ => [9]) 1000001 ⟨[], []⟩ "m1" "t"
      ⟨"clip.mov", "video/quicktime", [1]⟩ 7 (by decide)
  have h3 := h.2 ⟨7, "m1", "t", "clip1000001.mp4"⟩ (by decide) (by decide)
  rw [h3]
  decide

/-! ## Claim C8: location parsing and map rendering -/

/-- C8: when the location string splits on a comma into a first and a
second component that each parse as numeric, isValidLatLong holds and the
Map component receives the first component as latitude and the second as
longitude; the empty location instantiates no Map component while the
Google Maps button stays present with an empty-query URL; and an
unparsable location is treated as absent, instantiating no Map component
either. -/
theorem placedetails_map (loc p0 p1 : String) (rest : List String) :
    (jsSplitChar loc ',' = p0 :: p1 :: rest →
       jsParseFloatIsNum p0 = true → jsParseFloatIsNum p1 = true →
       isValidLatLong loc = true ∧ (renderMapArea loc).mapProps = some (p0, p1)) ∧
    ((renderMapArea "").mapProps = none ∧
       (renderMapArea "").buttonHref = "https://maps.google.com/?q=") ∧
    (isValidLatLong loc = false → (renderMapArea loc).mapProps = none) := by
  refine ⟨?_, ⟨by decide, by decide⟩, ?_⟩
  · intro h hp0 hp1
    have hvalid : isValidLatLong loc = true := by
      simp [isValidLatLong, h, jsParseFloatOptIsNum, hp0, hp1]
    have hne : loc ≠ "" := by
      intro he
      subst he
      have h2 : jsSplitChar "" ',' = [""] := by decide
      rw [h2] at h
      simpa using congrArg List.length h
    refine ⟨hvalid, ?_⟩
    simp [renderMapArea, mapComponentProps, hvalid, h, bne_iff_ne.mpr hne]
  · intro h
    simp [renderMapArea, mapComponentProps, h]

/-- C8, instantiated: the Taj Mahal location parses and the Map component
receives its two components, while an unparsable place name renders no
Map component. -/
theorem placedetails_map_witness :
    isValidLatLong "27.1751,78.0421" = true ∧
    (renderMapArea "27.1751,78.0421").mapProps = some ("27.1751", "78.0421") ∧
    (renderMapArea "Agra").mapProps = none := by
  have h := (placedetails_map "27.1751,78.0421" "27.1751" "78.0421" []).1
      (by decide) (by decide) (by decide)
  exact ⟨h.1, h.2, (placedetails_map "Agra" "" "" []).2.2 (by decide)⟩

end HistMon
